import Mathlib

/-
Verification of the MyLeaf collaboration relay (scripts/collab-server.js and
its authenticated variant).  The server code is shallowly embedded below:
pure fragments become Lean functions, the external libraries (lib0
encoding/decoding, y-protocols sync and awareness, Yjs documents, the Prisma
backing store) are modelled at the exact contract points the server calls
them, and wire frames are lists of byte values.
-/

namespace MyLeaf

/-! ## lib0 decoding and encoding

The server frames every message with lib0 variable-length unsigned integers.
`readVarUintAux` embeds lib0's `decoding.readVarUint` loop (7-bit groups,
little-endian, continuation bit 0x80, throwing on end of input or on
exceeding `Number.MAX_SAFE_INTEGER`); `writeVarUint` embeds
`encoding.writeVarUint`. -/

/-- Errors thrown by the lib0 decoders and by y-protocols `readSyncMessage`. -/
inductive DecErr where
  | unexpectedEndOfArray
  | integerOutOfRange
  | rangeError
  | unknownSyncType
  deriving DecidableEq

instance {ε α : Type} [DecidableEq ε] [DecidableEq α] : DecidableEq (Except ε α)
  | .error e, .error e' =>
    if h : e = e' then .isTrue (by rw [h])
    else .isFalse (fun hc => h (Except.error.inj hc))
  | .error _, .ok _ => .isFalse (fun hc => Except.noConfusion hc)
  | .ok _, .error _ => .isFalse (fun hc => Except.noConfusion hc)
  | .ok a, .ok b =>
    if h : a = b then .isTrue (by rw [h])
    else .isFalse (fun hc => h (Except.ok.inj hc))

/-- JavaScript `Number.MAX_SAFE_INTEGER`. -/
def maxSafeInteger : Nat := 2 ^ 53 - 1

/-- lib0 `decoding.readVarUint` main loop, carrying the accumulator and the
current multiplier; returns the decoded value and the remaining bytes. -/
def readVarUintAux : List Nat → Nat → Nat → Except DecErr (Nat × List Nat)
  | [], _, _ => .error .unexpectedEndOfArray
  | r :: rest, num, mult =>
    let num' := num + (r % 128) * mult
    if r < 128 then .ok (num', rest)
    else if num' > maxSafeInteger then .error .integerOutOfRange
    else readVarUintAux rest num' (mult * 128)

/-- lib0 `decoding.readVarUint`. -/
def readVarUint (l : List Nat) : Except DecErr (Nat × List Nat) :=
  readVarUintAux l 0 1

/-- lib0 `decoding.readUint8Array`: taking a view past the end of the buffer
throws a RangeError in JavaScript. -/
def readUint8Array (l : List Nat) (len : Nat) : Except DecErr (List Nat × List Nat) :=
  if len ≤ l.length then .ok (l.take len, l.drop len) else .error .rangeError

/-- lib0 `decoding.readVarUint8Array`: a varint length followed by that many
bytes. -/
def readVarUint8Array (l : List Nat) : Except DecErr (List Nat × List Nat) :=
  match readVarUint l with
  | .error e => .error e
  | .ok (len, rest) => readUint8Array rest len

/-- lib0 `encoding.writeVarUint` loop body, driven by structural fuel so
that it evaluates by kernel reduction; `fuel = n + 1` always suffices since
the argument shrinks by a factor of 128 each step. -/
def writeVarUintAux : Nat → Nat → List Nat
  | 0, _ => []
  | fuel + 1, n =>
    if n < 128 then [n] else (n % 128 + 128) :: writeVarUintAux fuel (n / 128)

/-- lib0 `encoding.writeVarUint`. -/
def writeVarUint (n : Nat) : List Nat :=
  writeVarUintAux (n + 1) n

/-- lib0 `encoding.writeVarUint8Array`. -/
def writeVarUint8Array (u : List Nat) : List Nat :=
  writeVarUint u.length ++ u

/-! ## The opaque Yjs document and awareness libraries

The relay treats both as black boxes: it only ever applies updates, encodes
state, and removes awareness entries.  They are embedded as call logs: a
document records the updates merged into it, an awareness table records the
updates applied to it and the client-id lists passed to
`removeAwarenessStates`. -/

/-- A Yjs document: `clientID` is the id Yjs assigns to the server-side
`Y.Doc` itself at creation, `applied` is the log of updates merged by
`Y.applyUpdate`. -/
structure YDoc where
  clientID : Nat
  applied : List (List Nat)
  deriving DecidableEq

/-- Yjs `Y.applyUpdate doc u`: merges the update into the document. -/
def applyUpdate (doc : YDoc) (u : List Nat) : YDoc :=
  { doc with applied := doc.applied ++ [u] }

/-- Modelled stand-in for the opaque `Y.encodeStateAsUpdate doc sv`. -/
def encodeStateAsUpdate (doc : YDoc) (_sv : List Nat) : List Nat :=
  doc.applied.flatten

/-- Modelled stand-in for the opaque `Y.encodeStateVector doc`. -/
def encodeStateVector (doc : YDoc) : List Nat :=
  [doc.applied.length]

/-- An awareness table, embedded as the log of library calls made against it:
`applied` records the payloads passed to `applyAwarenessUpdate`, `removals`
records the client-id lists passed to `removeAwarenessStates`. -/
structure Awareness where
  applied : List (List Nat)
  removals : List (List Nat)
  deriving DecidableEq

/-- y-protocols `awarenessProtocol.applyAwarenessUpdate awareness u origin`. -/
def applyAwarenessUpdate (aw : Awareness) (u : List Nat) : Awareness :=
  { aw with applied := aw.applied ++ [u] }

/-- y-protocols `awarenessProtocol.removeAwarenessStates awareness ids origin`. -/
def removeAwarenessStates (aw : Awareness) (ids : List Nat) : Awareness :=
  { aw with removals := aw.removals ++ [ids] }

/-- Modelled stand-in for the opaque full awareness snapshot encoding sent on
connect (`encodeAwarenessUpdate awareness (keys of getStates())`). -/
def encodeAwarenessSnapshot (aw : Awareness) : List Nat :=
  aw.applied.flatten

/-! ## y-protocols sync -/

def messageYjsSyncStep1 : Nat := 0
def messageYjsSyncStep2 : Nat := 1
def messageYjsUpdate : Nat := 2

/-- y-protocols `syncProtocol.readSyncMessage decoder encoder doc origin`.
Returns the inner sync message type, the bytes it appended to the response
encoder, and the resulting document.  Sync step 1 answers with a step-2
message; sync step 2 and update messages both merge the carried update into
the document via `Y.applyUpdate` (the library catches decode and apply
errors for those two cases internally, leaving the document unchanged);
an unknown inner type throws. -/
def readSyncMessage (l : List Nat) (doc : YDoc) :
    Except DecErr (Nat × List Nat × YDoc) :=
  match readVarUint l with
  | .error e => .error e
  | .ok (t, rest) =>
    if t = messageYjsSyncStep1 then
      match readVarUint8Array rest with
      | .error e => .error e
      | .ok (sv, _) =>
        .ok (t, writeVarUint messageYjsSyncStep2 ++
              writeVarUint8Array (encodeStateAsUpdate doc sv), doc)
    else if t = messageYjsSyncStep2 ∨ t = messageYjsUpdate then
      match readVarUint8Array rest with
      | .error _ => .ok (t, [], doc)
      | .ok (u, _) => .ok (t, [], applyUpdate doc u)
    else .error .unknownSyncType

/-! ## Connections, rooms and the message loop -/

/-- A live websocket connection as the relay sees it: an identity, the
read-only flag set at connect time (`conn.isReadOnly = accessRole ===
'viewer'`), and whether its `readyState` is currently `OPEN`. -/
structure Conn where
  cid : Nat
  isReadOnly : Bool
  isOpen : Bool
  deriving DecidableEq

/-- The server's `send(conn, message)`: delivers only when `conn.readyState
=== WebSocket.OPEN`, otherwise silently skips.  Deliveries are modelled as
(recipient id, frame) pairs. -/
def send (conn : Conn) (msg : List Nat) : List (Nat × List Nat) :=
  if conn.isOpen then [(conn.cid, msg)] else []

/-- One room as stored in the `docs` registry: the document, the awareness
table, and the set of live connections. -/
structure Room where
  doc : YDoc
  awareness : Awareness
  conns : List Conn
  deriving DecidableEq

def messageSync : Nat := 0
def messageAwareness : Nat := 1

/-- The server's `conns.forEach(c => { if (c !== conn) send(c, message) })`. -/
def broadcastTo : List Conn → Conn → List Nat → List (Nat × List Nat)
  | [], _, _ => []
  | c :: cs, sender, msg =>
    (if c.cid ≠ sender.cid then send c msg else []) ++ broadcastTo cs sender msg

/-- The `conn.on('message')` handler of the authenticated server: decode the
leading varint tag; for content-sync frames run `readSyncMessage` (the
read-only branch suppresses the response for update messages and never
broadcasts, the writable branch answers the sender and, for update messages,
re-extracts the update from `data.slice(1)` and fans it out to every other
connection); for presence frames apply the payload to the awareness table
and fan the re-encoded payload out; any other tag falls through the switch.
Errors thrown by the decoders escape the handler (there is no surrounding
try/catch in the source). -/
def handleMessage (room : Room) (conn : Conn) (data : List Nat) :
    Except DecErr (Room × List (Nat × List Nat)) :=
  match readVarUint data with
  | .error e => .error e
  | .ok (messageType, rest) =>
    if messageType = messageSync then
      if conn.isReadOnly then
        match readSyncMessage rest room.doc with
        | .error e => .error e
        | .ok (smt, resp, doc') =>
          let syncEncoder := writeVarUint messageSync ++ resp
          let outs :=
            if syncEncoder.length > 1 ∧ smt ≠ messageYjsUpdate then
              send conn syncEncoder
            else []
          .ok ({ room with doc := doc' }, outs)
      else
        match readSyncMessage rest room.doc with
        | .error e => .error e
        | .ok (smt, resp, doc') =>
          let syncEncoder := writeVarUint messageSync ++ resp
          let outs1 := if syncEncoder.length > 1 then send conn syncEncoder else []
          if smt = messageYjsUpdate then
            match readVarUint8Array (data.drop 1) with
            | .error e => .error e
            | .ok (update, _) =>
              let broadcastMessage :=
                writeVarUint messageSync ++ writeVarUint messageYjsUpdate ++
                  writeVarUint8Array update
              .ok ({ room with doc := doc' },
                   outs1 ++ broadcastTo room.conns conn broadcastMessage)
          else .ok ({ room with doc := doc' }, outs1)
    else if messageType = messageAwareness then
      match readVarUint8Array rest with
      | .error e => .error e
      | .ok (update, _) =>
        let awarenessMessage :=
          writeVarUint messageAwareness ++ writeVarUint8Array update
        .ok ({ room with awareness := applyAwarenessUpdate room.awareness update },
             broadcastTo room.conns conn awarenessMessage)
    else .ok (room, [])

/-- The `conn.on('close')` handler: delete the connection from the room's
set and call `removeAwarenessStates(awareness, [doc.clientID], null)`.  The
handler sends nothing, so the output list is always empty. -/
def closeConn (room : Room) (conn : Conn) : Room × List (Nat × List Nat) :=
  ({ room with
      conns := room.conns.filter (fun c => c.cid ≠ conn.cid),
      awareness := removeAwarenessStates room.awareness [room.doc.clientID] },
   [])

/-! ## Admission: session validation and project access

JavaScript strings are embedded as lists of characters (the empty list is
the falsy empty string).  The Prisma backing store is an oracle: absent when
`DATABASE_URL` is unset (`getDb()` returns null), otherwise a record of
query functions each of which may throw (`QResult.err`) or answer. -/

/-- A resolved user (`session.user`). -/
structure User where
  id : List Char
  deriving DecidableEq

/-- A session row: its user and whether `expiresAt < new Date()` held when
the row was read. -/
structure Session where
  user : User
  expired : Bool
  deriving DecidableEq

/-- Project roles as stored by the access model. -/
inductive Role where
  | owner
  | editor
  | viewer
  deriving DecidableEq

/-- Result of one backing-store query: Prisma either throws or answers. -/
inductive QResult (α : Type) where
  | err
  | ok (val : α)
  deriving DecidableEq

/-- The backing store: `session.findUnique` (with its user included),
`project.findUnique` (answering the project's `ownerId` when the project
exists), and `projectCollaborator.findUnique` (answering the stored role). -/
structure DB where
  sessionQ : List Char → QResult (Option Session)
  projectQ : List Char → QResult (Option (List Char))
  collabQ : List Char → List Char → QResult (Option Role)

/-- Label of one backing-store query, used to record which queries an
admission performed. -/
inductive Query where
  | session (sid : List Char)
  | project (pid : List Char)
  | collab (pid uid : List Char)
  deriving DecidableEq

/-- The server's `validateSession(sessionId)`, instrumented with the list of
backing-store queries it performed: null session id or absent store resolve
to no user without querying; a thrown query, a missing row, or an expired
session also resolve to no user. -/
def validateSession (db : Option DB) (sessionId : Option (List Char)) :
    Option User × List Query :=
  match sessionId with
  | none => (none, [])
  | some sid =>
    match db with
    | none => (none, [])
    | some d =>
      match d.sessionQ sid with
      | QResult.err => (none, [Query.session sid])
      | QResult.ok none => (none, [Query.session sid])
      | QResult.ok (some s) =>
        (if s.expired then none else some s.user, [Query.session sid])

/-- The server's `checkProjectAccess(userId, projectId)`, instrumented with
a flag recording whether the demo-mode branch (`if (!db) return 'editor'`)
produced the answer, and with the queries performed.  Falsy arguments answer
null; with no store the demo fallback allows access as editor; otherwise the
owner check runs first, then the collaborator lookup, and a thrown query is
caught and answered as null. -/
def checkProjectAccess (db : Option DB) (userId projectId : List Char) :
    Option Role × Bool × List Query :=
  if userId = [] ∨ projectId = [] then (none, false, [])
  else
    match db with
    | none => (some Role.editor, true, [])
    | some d =>
      match d.projectQ projectId with
      | QResult.err => (none, false, [Query.project projectId])
      | QResult.ok none => (none, false, [Query.project projectId])
      | QResult.ok (some ownerId) =>
        if ownerId = userId then (some Role.owner, false, [Query.project projectId])
        else
          match d.collabQ projectId userId with
          | QResult.err =>
            (none, false, [Query.project projectId, Query.collab projectId userId])
          | QResult.ok r =>
            (r, false, [Query.project projectId, Query.collab projectId userId])

/-- Split a character list on colons; mirrors how the room-name regular
expression `^project:([^:]+):file:([^:]+)$` segments its subject, since the
captured groups are exactly the colon-free components. -/
def splitOnColon : List Char → List (List Char)
  | [] => [[]]
  | c :: rest =>
    match splitOnColon rest with
    | [] => if c = ':' then [[], [c]] else [[c]]
    | h :: t => if c = ':' then [] :: h :: t else (c :: h) :: t

/-- The server's `parseRoomName(roomName)`: a name matching
`^project:([^:]+):file:([^:]+)$` is scoped and yields its project and file
ids; any other name is unscoped and is itself the file id.  The regular
expression matches exactly when splitting on colons yields the four
components `project`, a non-empty projectId, `file`, a non-empty fileId. -/
def parseRoomName (roomName : List Char) : Option (List Char) × List Char :=
  match splitOnColon roomName with
  | [w1, p, w2, f] =>
    if w1 = "project".toList ∧ w2 = "file".toList ∧ p ≠ [] ∧ f ≠ [] then
      (some p, f)
    else (none, roomName)
  | _ => (none, roomName)

/-- Initial content-sync message sent to a newly accepted connection:
`writeVarUint(messageSync)` followed by `writeSyncStep1(encoder, doc)`. -/
def syncStep1Message (doc : YDoc) : List Nat :=
  writeVarUint messageSync ++ writeVarUint messageYjsSyncStep1 ++
    writeVarUint8Array (encodeStateVector doc)

/-- Initial presence message sent to a newly accepted connection: the full
awareness snapshot. -/
def awarenessSnapshotMessage (aw : Awareness) : List Nat :=
  writeVarUint messageAwareness ++ writeVarUint8Array (encodeAwarenessSnapshot aw)

/-- Everything the `wss.on('connection')` handler decides for one incoming
connection: the close code when rejected, whether the connection joined the
room's set, the stored user and access role, the derived read-only flag, the
messages sent to the connection, and the backing-store queries performed. -/
structure ConnectOutcome where
  closeCode : Option Nat
  joined : Bool
  user : Option User
  accessRole : Option Role
  isReadOnly : Bool
  sent : List (List Nat)
  queries : List Query
  deriving DecidableEq

/-- Shared tail of the connection handler once admission succeeds: store the
user and role, derive `isReadOnly`, join the room, and send the initial
sync step 1 and awareness snapshot. -/
def acceptOutcome (user : Option User) (r : Role) (room : Room)
    (qs : List Query) : ConnectOutcome :=
  { closeCode := none, joined := true, user := user, accessRole := some r,
    isReadOnly := decide (r = Role.viewer),
    sent := [syncStep1Message room.doc, awarenessSnapshotMessage room.awareness],
    queries := qs }

/-- The `wss.on('connection')` handler of the authenticated server: the room
name is parsed, the session cookie is resolved to a user (this happens
before and regardless of the scoped-room check), and then: a scoped room
with no resolved user closes with 4001, a scoped room whose role resolution
answers null closes with 4003 (both before joining the room and before any
message is sent), a scoped room with a role is accepted at that role, and an
unscoped room is accepted as editor. -/
def wsConnectionHandler (db : Option DB) (roomName : List Char)
    (sid : Option (List Char)) (room : Room) : ConnectOutcome :=
  match (parseRoomName roomName).1 with
  | some projectId =>
    match (validateSession db sid).1 with
    | none =>
      { closeCode := some 4001, joined := false, user := none,
        accessRole := none, isReadOnly := false, sent := [],
        queries := (validateSession db sid).2 }
    | some u =>
      match (checkProjectAccess db u.id projectId).1 with
      | none =>
        { closeCode := some 4003, joined := false, user := some u,
          accessRole := none, isReadOnly := false, sent := [],
          queries := (validateSession db sid).2 ++
            (checkProjectAccess db u.id projectId).2.2 }
      | some r =>
        acceptOutcome (validateSession db sid).1 r room
          ((validateSession db sid).2 ++ (checkProjectAccess db u.id projectId).2.2)
  | none =>
    acceptOutcome (validateSession db sid).1 Role.editor room (validateSession db sid).2

/-- The Access Resolver being unavailable: either no backing store is
configured (`DATABASE_URL` unset, `getDb()` answers null) or the store is
unreachable, so every query against it throws. -/
def resolverUnavailable (db : Option DB) : Prop :=
  db = none ∨
    ∃ d, db = some d ∧ (∀ s, d.sessionQ s = QResult.err) ∧
      (∀ p, d.projectQ p = QResult.err) ∧ (∀ p u, d.collabQ p u = QResult.err)

/-! ## Concrete fixtures used by witnesses and counterexamples -/

/-- A read-only connection (accessRole viewer), id 1, transport open. -/
def connViewer : Conn := ⟨1, true, true⟩

/-- A writable connection, id 1, transport open. -/
def connEditor : Conn := ⟨1, false, true⟩

/-- A writable peer connection, id 2, transport open. -/
def connPeer : Conn := ⟨2, false, true⟩

/-- A peer connection whose transport is no longer open. -/
def connClosed : Conn := ⟨3, false, false⟩

/-- A room holding a viewer and a writable peer; the server-side document
got Yjs client id 99. -/
def roomA : Room := ⟨⟨99, []⟩, ⟨[], []⟩, [connViewer, connPeer]⟩

/-- A room holding a writable sender, an open peer and a closed peer. -/
def roomB : Room := ⟨⟨99, []⟩, ⟨[], []⟩, [connEditor, connPeer, connClosed]⟩

/-- A backing store whose session s resolves to user u1, who owns every
project. -/
def dbOwner : DB :=
  { sessionQ := fun _ => .ok (some { user := { id := "u1".toList }, expired := false })
    projectQ := fun _ => .ok (some "u1".toList)
    collabQ := fun _ _ => .ok none }

/-! ## Helper lemmas -/

theorem validateSession_unavailable {db : Option DB} (h : resolverUnavailable db)
    (sid : Option (List Char)) : (validateSession db sid).1 = none := by
  rcases h with rfl | ⟨d, rfl, hs, -, -⟩
  · cases sid <;> rfl
  · cases sid with
    | none => rfl
    | some s => simp [validateSession, hs s]

theorem validateSession_some_db {db : Option DB} {sid : Option (List Char)} {u : User}
    (h : (validateSession db sid).1 = some u) : ∃ d, db = some d := by
  cases sid with
  | none => simp [validateSession] at h
  | some s =>
    cases db with
    | none => simp [validateSession] at h
    | some d => exact ⟨d, rfl⟩

theorem checkProjectAccess_no_fallback (d : DB) (uid pid : List Char) :
    (checkProjectAccess (some d) uid pid).2.1 = false := by
  unfold checkProjectAccess
  by_cases h : uid = [] ∨ pid = []
  · simp [h]
  · simp only [h, if_false]
    cases d.projectQ pid with
    | err => rfl
    | ok o =>
      cases o with
      | none => rfl
      | some ownerId =>
        by_cases ho : ownerId = uid
        · simp [ho]
        · simp only [ho, if_false]
          cases d.collabQ pid uid <;> rfl

theorem handler_scoped_noUser {db : Option DB} {roomName : List Char}
    {sid : Option (List Char)} {pid : List Char} (room : Room)
    (hp : (parseRoomName roomName).1 = some pid)
    (hu : (validateSession db sid).1 = none) :
    wsConnectionHandler db roomName sid room =
      { closeCode := some 4001, joined := false, user := none,
        accessRole := none, isReadOnly := false, sent := [],
        queries := (validateSession db sid).2 } := by
  unfold wsConnectionHandler
  rw [hp, hu]

theorem handler_scoped_noRole {db : Option DB} {roomName : List Char}
    {sid : Option (List Char)} {pid : List Char} {u : User} (room : Room)
    (hp : (parseRoomName roomName).1 = some pid)
    (hu : (validateSession db sid).1 = some u)
    (hr : (checkProjectAccess db u.id pid).1 = none) :
    wsConnectionHandler db roomName sid room =
      { closeCode := some 4003, joined := false, user := some u,
        accessRole := none, isReadOnly := false, sent := [],
        queries := (validateSession db sid).2 ++
          (checkProjectAccess db u.id pid).2.2 } := by
  unfold wsConnectionHandler
  rw [hp, hu]
  simp only [hr]

theorem handler_unscoped {db : Option DB} {roomName : List Char}
    {sid : Option (List Char)} (room : Room)
    (hp : (parseRoomName roomName).1 = none) :
    wsConnectionHandler db roomName sid room =
      acceptOutcome (validateSession db sid).1 Role.editor room
        (validateSession db sid).2 := by
  unfold wsConnectionHandler
  rw [hp]

theorem mem_broadcastTo {conns : List Conn} {sender c : Conn} {msg : List Nat}
    (hc : c ∈ conns) (hne : c.cid ≠ sender.cid) (hopen : c.isOpen = true) :
    (c.cid, msg) ∈ broadcastTo conns sender msg := by
  induction conns with
  | nil => cases hc
  | cons x xs ih =>
    rcases List.mem_cons.mp hc with rfl | hc
    · apply List.mem_append.mpr
      left
      rw [if_pos hne]
      simp [send, hopen]
    · exact List.mem_append.mpr (Or.inr (ih hc))

theorem broadcastTo_ne_sender {conns : List Conn} {sender : Conn} {msg : List Nat} :
    ∀ m ∈ broadcastTo conns sender msg, m.1 ≠ sender.cid := by
  induction conns with
  | nil => intro m hm; cases hm
  | cons x xs ih =>
    intro m hm
    rcases List.mem_append.mp hm with hm | hm
    · by_cases hx : x.cid ≠ sender.cid
      · rw [if_pos hx] at hm
        unfold send at hm
        by_cases ho : x.isOpen = true
        · rw [if_pos ho] at hm
          have hme := List.mem_singleton.mp hm
          subst hme
          exact hx
        · rw [if_neg ho] at hm; cases hm
      · rw [if_neg hx] at hm; cases hm
    · exact ih m hm

theorem broadcastTo_cid_congr {conns : List Conn} {s1 s2 : Conn} {msg : List Nat}
    (h : s1.cid = s2.cid) : broadcastTo conns s1 msg = broadcastTo conns s2 msg := by
  induction conns with
  | nil => rfl
  | cons x xs ih => simp only [broadcastTo, h, ih]

/-! ## Claim theorems -/

/-- C1: the claim says a read-only connection's mutation-bearing sync frame
is neither merged into the room document nor broadcast.  Evaluating the
handler on the update frame `[0, 2, 1, 7]` (tag sync, inner type update,
payload `[7]`) from a viewer shows the handler does broadcast nothing and
answer nothing, but the document nevertheless absorbs the update, because
the read-only branch still routes the frame through `readSyncMessage`,
which applies update messages to the document. -/
theorem readonly_update_merged :
    handleMessage roomA connViewer [0, 2, 1, 7] =
      .ok ({ roomA with doc := applyUpdate roomA.doc [7] }, []) ∧
    applyUpdate roomA.doc [7] ≠ roomA.doc := by decide

/-- C2: the claim says the broadcast sent to peers contains the incoming
update U.  On the update frame `[0, 2, 1, 7]` (U = `[7]`) from a writable
connection, the document is updated, no response goes to the sender, the
closed peer is skipped, and the open peer receives a broadcast — but the
broadcast is `[0, 2, 2, 1, 7]`, not the re-encoding of U (`[0, 2, 1, 7]`):
the code reads the update from `data.slice(1)` without consuming the inner
sync-type varint, so the type byte 2 is taken as the array length. -/
theorem broadcast_update_corrupted :
    handleMessage roomB connEditor [0, 2, 1, 7] =
      .ok ({ roomB with doc := applyUpdate roomB.doc [7] }, [(2, [0, 2, 2, 1, 7])]) ∧
    ([0, 2, 2, 1, 7] : List Nat) ≠
      writeVarUint messageSync ++ writeVarUint messageYjsUpdate ++
        writeVarUint8Array [7] := by decide

/-- C3: the claim says closing a connection with client-id k removes that
connection, purges k's awareness entries and broadcasts a presence-removal
for k.  The close handler does remove the connection from the room set, but
it passes the server document's own client id (99 here, never a client's id
such as 5) to `removeAwarenessStates`, and it sends nothing at all. -/
theorem close_cleanup_wrong_id :
    closeConn roomB connEditor =
      ({ roomB with conns := [connPeer, connClosed],
                    awareness :=
                      removeAwarenessStates roomB.awareness [roomB.doc.clientID] },
       []) ∧
    roomB.doc.clientID ≠ 5 := by decide

/-- C4: for a scoped room, an unavailable Access Resolver (no backing store
configured, or every query against it throwing) makes admission behave
exactly as if the credential resolved to no user: the connection is closed
with 4001, never joins a room, receives no message, and is never granted a
role. -/
theorem scoped_resolver_unavailable_rejects (db : Option DB) (roomName : List Char)
    (sid : Option (List Char)) (room : Room) (pid : List Char)
    (hp : (parseRoomName roomName).1 = some pid)
    (hun : resolverUnavailable db) :
    (wsConnectionHandler db roomName sid room).closeCode = some 4001 ∧
    (wsConnectionHandler db roomName sid room).joined = false ∧
    (wsConnectionHandler db roomName sid room).sent = [] ∧
    (wsConnectionHandler db roomName sid room).accessRole = none := by
  rw [handler_scoped_noUser room hp (validateSession_unavailable hun sid)]
  exact ⟨rfl, rfl, rfl, rfl⟩

/-- Witness for C4 at the concrete scoped room name with no backing store. -/
theorem scoped_resolver_unavailable_rejects_witness :
    (parseRoomName "project:p1:file:f1".toList).1 = some "p1".toList ∧
    (wsConnectionHandler none "project:p1:file:f1".toList none roomA).closeCode =
      some 4001 :=
  ⟨by decide,
    (scoped_resolver_unavailable_rejects none "project:p1:file:f1".toList none roomA
      "p1".toList (by decide) (Or.inl rfl)).1⟩

/-- C5: for a scoped room, a credential resolving to no user closes the
transport with 4001, and a resolved user with no role on the project closes
it with 4003; in both cases the connection never joins the room's set and
no message beyond the close signal is sent to it. -/
theorem scoped_rejection_no_membership (db : Option DB) (roomName : List Char)
    (sid : Option (List Char)) (room : Room) (pid : List Char)
    (hp : (parseRoomName roomName).1 = some pid) :
    ((validateSession db sid).1 = none →
      (wsConnectionHandler db roomName sid room).closeCode = some 4001 ∧
      (wsConnectionHandler db roomName sid room).joined = false ∧
      (wsConnectionHandler db roomName sid room).sent = []) ∧
    (∀ u, (validateSession db sid).1 = some u →
      (checkProjectAccess db u.id pid).1 = none →
      (wsConnectionHandler db roomName sid room).closeCode = some 4003 ∧
      (wsConnectionHandler db roomName sid room).joined = false ∧
      (wsConnectionHandler db roomName sid room).sent = []) := by
  constructor
  · intro hu
    rw [handler_scoped_noUser room hp hu]
    exact ⟨rfl, rfl, rfl⟩
  · intro u hu hr
    rw [handler_scoped_noRole room hp hu hr]
    exact ⟨rfl, rfl, rfl⟩

/-- Witness for C5: connecting to a scoped room with no credential and no
backing store closes with 4001, joins nothing and is sent nothing. -/
theorem scoped_rejection_no_membership_witness :
    (validateSession none none).1 = none ∧
    (wsConnectionHandler none "project:p2:file:f9".toList none roomA).closeCode =
      some 4001 ∧
    (wsConnectionHandler none "project:p2:file:f9".toList none roomA).joined = false ∧
    (wsConnectionHandler none "project:p2:file:f9".toList none roomA).sent = [] :=
  ⟨rfl,
    (scoped_rejection_no_membership none "project:p2:file:f9".toList none roomA
      "p2".toList (by decide)).1 rfl⟩

/-- C6 counterexample: the claim says no credential resolution is performed
for an unscoped room.  Connecting to the unscoped room `scratchpad` with a
session cookie and a configured backing store is accepted as editor, yet
the admission did query the store for the session: resolution is performed,
its result merely has no effect on admission. -/
theorem unscoped_resolution_still_performed :
    (wsConnectionHandler (some dbOwner) "scratchpad".toList (some "s1".toList)
        roomA).accessRole = some Role.editor ∧
    (wsConnectionHandler (some dbOwner) "scratchpad".toList (some "s1".toList)
        roomA).joined = true ∧
    (wsConnectionHandler (some dbOwner) "scratchpad".toList (some "s1".toList)
        roomA).queries ≠ [] := by decide

/-- C6 amended: a connection naming an unscoped room is accepted
unconditionally with accessRole editor (hence not read-only), for every
backing-store state and every credential; credential resolution is still
attempted, but its outcome cannot affect the admission. -/
theorem unscoped_accepted_as_editor (db : Option DB) (roomName : List Char)
    (sid : Option (List Char)) (room : Room)
    (hp : (parseRoomName roomName).1 = none) :
    (wsConnectionHandler db roomName sid room).closeCode = none ∧
    (wsConnectionHandler db roomName sid room).joined = true ∧
    (wsConnectionHandler db roomName sid room).accessRole = some Role.editor ∧
    (wsConnectionHandler db roomName sid room).isReadOnly = false := by
  rw [handler_unscoped room hp]
  exact ⟨rfl, rfl, rfl, rfl⟩

/-- Witness for the amended C6 at the concrete unscoped room name. -/
theorem unscoped_accepted_as_editor_witness :
    (wsConnectionHandler none "scratchpad".toList none roomA).closeCode = none ∧
    (wsConnectionHandler none "scratchpad".toList none roomA).joined = true ∧
    (wsConnectionHandler none "scratchpad".toList none roomA).accessRole =
      some Role.editor ∧
    (wsConnectionHandler none "scratchpad".toList none roomA).isReadOnly = false :=
  unscoped_accepted_as_editor none "scratchpad".toList none roomA (by decide)

/-- C7: a presence (tag 1) frame from any admitted connection is applied to
the room's awareness table and its payload re-broadcast to every other open
connection, never echoed to the sender; and the outcome is independent of
the connection's read-only flag, so presence handling performs no
access-role check. -/
theorem presence_relayed_role_agnostic (room : Room) (conn : Conn)
    (data rest u tail : List Nat)
    (h1 : readVarUint data = .ok (1, rest))
    (h2 : readVarUint8Array rest = .ok (u, tail)) :
    handleMessage room conn data =
      .ok ({ room with awareness := applyAwarenessUpdate room.awareness u },
        broadcastTo room.conns conn
          (writeVarUint messageAwareness ++ writeVarUint8Array u)) ∧
    (∀ c ∈ room.conns, c.cid ≠ conn.cid → c.isOpen = true →
      (c.cid, writeVarUint messageAwareness ++ writeVarUint8Array u) ∈
        broadcastTo room.conns conn
          (writeVarUint messageAwareness ++ writeVarUint8Array u)) ∧
    (∀ m ∈ broadcastTo room.conns conn
        (writeVarUint messageAwareness ++ writeVarUint8Array u), m.1 ≠ conn.cid) ∧
    (∀ b, handleMessage room { conn with isReadOnly := b } data =
      handleMessage room conn data) := by
  have heval : ∀ c : Conn, c.cid = conn.cid →
      handleMessage room c data =
        .ok ({ room with awareness := applyAwarenessUpdate room.awareness u },
          broadcastTo room.conns conn
            (writeVarUint messageAwareness ++ writeVarUint8Array u)) := by
    intro c hcc
    unfold handleMessage
    rw [h1]
    simp [messageSync, messageAwareness, h2, broadcastTo_cid_congr hcc]
  refine ⟨heval conn rfl, ?_, ?_, ?_⟩
  · intro c hcmem hne hopen
    exact mem_broadcastTo hcmem hne hopen
  · intro m hm
    exact broadcastTo_ne_sender m hm
  · intro b
    rw [heval { conn with isReadOnly := b } rfl, heval conn rfl]

/-- Witness for C7: the presence frame `[1, 1, 9]` (payload `[9]`) from the
viewer is applied to the awareness table and fanned out. -/
theorem presence_relayed_role_agnostic_witness :
    handleMessage roomA connViewer [1, 1, 9] =
      .ok ({ roomA with awareness := applyAwarenessUpdate roomA.awareness [9] },
        broadcastTo roomA.conns connViewer
          (writeVarUint messageAwareness ++ writeVarUint8Array [9])) :=
  (presence_relayed_role_agnostic roomA connViewer [1, 1, 9] [1, 9] [9] []
    (by decide) (by decide)).1

/-- C8: the claim says a malformed frame fails only that single message and
never crashes the room.  The handler has no try/catch, so decode errors
escape `conn.on('message')` as uncaught exceptions: the empty frame makes
the tag read throw end-of-array, and a sync frame with an unknown inner
type makes `readSyncMessage` throw, both modelled by the handler evaluating
to an error that no caller catches. -/
theorem malformed_frame_uncaught :
    handleMessage roomA connViewer [] = .error DecErr.unexpectedEndOfArray ∧
    handleMessage roomA connPeer [0, 5] = .error DecErr.unknownSyncType := by decide

/-- C9: whenever admission of a scoped room reaches role resolution (the
credential resolved to a user), a backing store is necessarily configured,
so the demo-mode branch of `checkProjectAccess` that grants editor without
a store is unreachable for scoped rooms. -/
theorem role_fallback_unreachable (db : Option DB) (roomName : List Char)
    (sid : Option (List Char)) (pid : List Char) (u : User)
    (_hp : (parseRoomName roomName).1 = some pid)
    (hu : (validateSession db sid).1 = some u) :
    (∃ d, db = some d) ∧ (checkProjectAccess db u.id pid).2.1 = false := by
  obtain ⟨d, rfl⟩ := validateSession_some_db hu
  exact ⟨⟨d, rfl⟩, checkProjectAccess_no_fallback d u.id pid⟩

/-- Witness for C9 at a concrete store, session and scoped room. -/
theorem role_fallback_unreachable_witness :
    (checkProjectAccess (some dbOwner) "u1".toList "p1".toList).2.1 = false :=
  (role_fallback_unreachable (some dbOwner) "project:p1:file:f1".toList
    (some "s1".toList) "p1".toList ⟨"u1".toList⟩ (by decide) (by decide)).2

/-- C10: a frame whose leading varint tag is neither 0 (content-sync) nor 1
(presence) falls through the switch: the room is unchanged, nothing is sent
to anyone, and no error is raised, so the connection stays active. -/
theorem unknown_tag_ignored (room : Room) (conn : Conn) (data : List Nat)
    (t : Nat) (rest : List Nat) (h : readVarUint data = .ok (t, rest))
    (h0 : t ≠ messageSync) (h1 : t ≠ messageAwareness) :
    handleMessage room conn data = .ok (room, []) := by
  unfold handleMessage
  rw [h]
  simp [h0, h1]

/-- Witness for C10: the frame `[5]` is silently ignored. -/
theorem unknown_tag_ignored_witness :
    handleMessage roomA connViewer [5] = .ok (roomA, []) :=
  unknown_tag_ignored roomA connViewer [5] 5 [] (by decide) (by decide) (by decide)

end MyLeaf
